import Mathlib

/-
Verification of the session orchestration and PTY-bridge layer of the
maestro-linux client: a shallow embedding of the Session Registry
(src/src/stores/useSessionStore.ts), the Session Orchestrator
(src/src/components/terminal/TerminalGrid.tsx) and the Output Relay
(src/src/components/terminal/TerminalView.tsx), together with proofs of
the lifecycle and concurrency properties stated in the design document.

Scheduling in the client is single-threaded and cooperative: asynchronous
continuations (promise resolutions, effect runs, user clicks) interleave as
atomic steps of a state machine. Each component below is embedded as an
explicit state type plus a step function over an event alphabet whose
events correspond one-to-one to the atomic scheduling turns of the source.
-/

namespace Maestro

/-! ## Session Registry: useSessionStore.ts

The module-level mutable cells of useSessionStore.ts are
listenerCount : number, and activeUnlisten : UnlistenFn | null.
We model listenerCount as a Nat (the code clamps it at zero with
Math.max) and activeUnlisten by the Bool activeListener, true when an
underlying session-status-changed subscription is registered.
The listen promise is modelled as resolving immediately (the claims under
study exercise initListeners sequentially, each await completing before
the next event), so pendingInit never carries state between events. -/

structure RegState where
  listenerCount : Nat
  activeListener : Bool
  deriving Repr, DecidableEq

def regInit : RegState := ⟨0, false⟩

/-- One call of initListeners: listenerCount += 1; if there is no active
underlying listener, register one (the 0 to 1 transition creates it). -/
def initListenersStep (s : RegState) : RegState :=
  let s := { s with listenerCount := s.listenerCount + 1 }
  if s.activeListener then s else { s with activeListener := true }

/-- One call of the disposer returned by initListeners:
listenerCount = Math.max(0, listenerCount - 1); if the count reached zero
and a listener is active, call activeUnlisten and null it out. Nat
subtraction is exactly the Math.max clamp. -/
def disposerStep (s : RegState) : RegState :=
  let c := s.listenerCount - 1
  if c = 0 ∧ s.activeListener then ⟨c, false⟩
  else { s with listenerCount := c }

/-- Events a Registry consumer can trigger: a subscribe call, or a call of
one of the (indistinguishable) returned disposers. -/
inductive RegEvent where
  | subscribe
  | dispose
  deriving Repr, DecidableEq

def regStep (e : RegEvent) (s : RegState) : RegState :=
  match e with
  | .subscribe => initListenersStep s
  | .dispose => disposerStep s

def regRun (es : List RegEvent) (s : RegState) : RegState :=
  es.foldl (fun s e => regStep e s) s

/-! ## Session Registry: the session list and the status-change handler -/

/-- AI provider variants supported by the backend orchestrator. -/
inductive AiMode where
  | Claude
  | Gemini
  | Codex
  | Plain
  deriving Repr, DecidableEq

/-- Backend-emitted session lifecycle states. -/
inductive BackendSessionStatus where
  | Starting
  | Idle
  | Working
  | NeedsInput
  | Done
  | Error
  deriving Repr, DecidableEq

/-- Mirrors the SessionConfig record returned by get_sessions. -/
structure SessionConfig where
  id : Nat
  mode : AiMode
  branch : Option String
  status : BackendSessionStatus
  worktree_path : Option String
  deriving Repr, DecidableEq

/-- The session-status-changed event handler installed by initListeners:
sessions := sessions.map (s => s.id = payload.session_id ?
{ ...s, status: payload.status } : s). -/
def applyStatusChanged (session_id : Nat) (status : BackendSessionStatus)
    (sessions : List SessionConfig) : List SessionConfig :=
  sessions.map fun s =>
    if s.id = session_id then { s with status := status } else s

/-! ## Session Orchestrator: TerminalGrid.tsx

State of one TerminalGrid scope. The React state variables sessions and
error, the refs mounted and sessionsRef, and the cancellation flag of the
mount effect are embedded directly. sessionsRef is kept in sync with
sessions by an effect that runs right after every commit, and every event
below runs at a turn boundary, so reading sessions models reading
sessionsRef.current. Two ghost fields record the interaction with the
backend: killed logs every id passed to killSession, and respawnSpawns
counts the spawnShell calls issued by the auto-respawn effect.
respawnEpoch numbers the runs of the auto-respawn effect: a run is
cancelled (its local cancelled flag set by its cleanup) exactly when a
newer run has started, i.e. when its recorded epoch is stale, or when the
whole scope is unmounted. -/

/-- Hard ceiling on concurrent PTY sessions per grid. -/
def MAX_SESSIONS : Nat := 6

structure Grid where
  sessions : List Nat
  error : Bool
  mounted : Bool
  cancelled : Bool
  pendingAdd : Nat
  respawnEpoch : Nat
  respawnSpawns : Nat
  killed : List Nat
  deriving Repr, DecidableEq

def gridInit : Grid :=
  { sessions := [], error := false, mounted := false, cancelled := false
    pendingAdd := 0, respawnEpoch := 0, respawnSpawns := 0, killed := [] }

/-- React runs effects after a commit whose dependencies changed. The
auto-respawn effect depends on [sessions.length, error]: when either
changed, the previous run is cleaned up (cancelling it: respawnEpoch is
advanced) and the body re-runs, issuing one spawnShell call iff
sessions.length = 0 and mounted.current and no error is set. -/
def commitGrid (old new : Grid) : Grid :=
  if new.sessions.length = old.sessions.length ∧ new.error = old.error then new
  else
    let s := { new with respawnEpoch := new.respawnEpoch + 1 }
    if s.sessions.length = 0 ∧ s.mounted ∧ s.error = false then
      { s with respawnSpawns := s.respawnSpawns + 1 }
    else s

/-- Atomic scheduling turns of the TerminalGrid scope:
the resolution or rejection of the initial-mount spawn, a user click on
add (the synchronous part of addSession), the resolution or rejection of
an addSession spawn, the resolution or rejection of the auto-respawn
spawn issued by effect run ep, a user closing one cell (the grid-level
handleKill that removes the id), and the unmount cleanup. -/
inductive GEvent where
  | mountResolve (id : Nat)
  | mountFail
  | addClick
  | addResolve (id : Nat)
  | addFail
  | respawnResolve (ep : Nat) (id : Nat)
  | respawnFail (ep : Nat)
  | killCell (id : Nat)
  | unmount
  deriving Repr, DecidableEq

def gridStep (e : GEvent) (s : Grid) : Grid :=
  match e with
  | .mountResolve id =>
      -- then-branch of the mount effect spawnShell: adopt [id] and set
      -- mounted.current unless the scope was cancelled, else kill id.
      if s.cancelled then { s with killed := id :: s.killed }
      else commitGrid s { s with sessions := [id], mounted := true }
  | .mountFail =>
      if s.cancelled then s else commitGrid s { s with error := true }
  | .addClick =>
      -- addSession synchronous part: pre-check against sessionsRef, then
      -- issue spawnShell (one more in-flight add).
      if MAX_SESSIONS ≤ s.sessions.length then s
      else { s with pendingAdd := s.pendingAdd + 1 }
  | .addResolve id =>
      if s.pendingAdd = 0 then s
      else if s.cancelled then
        -- setSessions on an unmounted component: the updater is dropped.
        { s with pendingAdd := s.pendingAdd - 1 }
      else
        let s := { s with pendingAdd := s.pendingAdd - 1 }
        -- the setState updater re-checks the cap against the latest
        -- committed list: kill the id when full, append it otherwise.
        if MAX_SESSIONS ≤ s.sessions.length then { s with killed := id :: s.killed }
        else commitGrid s { s with sessions := s.sessions ++ [id] }
  | .addFail =>
      if s.pendingAdd = 0 then s else { s with pendingAdd := s.pendingAdd - 1 }
  | .respawnResolve ep id =>
      -- then-branch of the auto-respawn spawnShell of effect run ep:
      -- adopt [id] unless that run was cancelled, else kill id.
      if ep = s.respawnEpoch ∧ s.cancelled = false then
        commitGrid s { s with sessions := [id] }
      else { s with killed := id :: s.killed }
  | .respawnFail ep =>
      if ep = s.respawnEpoch ∧ s.cancelled = false then
        commitGrid s { s with error := true }
      else s
  | .killCell id =>
      if s.cancelled then s
      else commitGrid s { s with sessions := s.sessions.filter (fun x => x ≠ id) }
  | .unmount =>
      -- mount effect cleanup: set cancelled, drop mounted.current, then
      -- iterate sessionsRef.current issuing killSession for every member.
      if s.cancelled then s
      else { s with cancelled := true, mounted := false
                    killed := s.killed ++ s.sessions }

def gridRun (es : List GEvent) (s : Grid) : Grid :=
  es.foldl (fun s e => gridStep e s) s

/-- An event that can place the given id into the visible set: the ids the
backend hands to this scope are fresh, so an id whose only delivery was a
cancelled resolution is never delivered again. -/
def delivers (e : GEvent) (id : Nat) : Bool :=
  match e with
  | .mountResolve j => j = id
  | .addResolve j => j = id
  | .respawnResolve _ j => j = id
  | _ => false

/-- A spawn resolution arriving after its owning scope was cancelled: the
initial-mount spawn with the scope cancelled flag set, or an auto-respawn
spawn whose effect run is stale or whose scope is unmounted. -/
def cancelledSpawnResolve (e : GEvent) (s : Grid) (id : Nat) : Prop :=
  (e = .mountResolve id ∧ s.cancelled = true) ∨
  (∃ ep, e = .respawnResolve ep id ∧ ¬(ep = s.respawnEpoch ∧ s.cancelled = false))

/-! ## Output Relay: TerminalView.tsx

Per-cell state of the PTY output subscription: the disposed flag set by
the effect cleanup, the stored unlisten function (unlistenStored), whether
the underlying Tauri event subscription is currently registered
(subActive), and a count of writes into the xterm surface. -/

structure RelayState where
  disposed : Bool
  unlistenStored : Bool
  subActive : Bool
  writes : Nat
  deriving Repr, DecidableEq

def relayInit : RelayState :=
  { disposed := false, unlistenStored := false, subActive := false, writes := 0 }

/-- Atomic turns of one TerminalView cell: a pushed pty-output event
reaching the registered callback, the listenerReady promise resolving with
the unlisten function, and the effect cleanup on deactivation. -/
inductive REvent where
  | output
  | resolve
  | cleanup
  deriving Repr, DecidableEq

def relayStep (e : REvent) (s : RelayState) : RelayState :=
  match e with
  | .output =>
      -- the onPtyOutput callback: if (!disposed) term.write(data)
      if s.disposed then s else { s with writes := s.writes + 1 }
  | .resolve =>
      -- listenerReady.then: the subscription is now established; if the
      -- cell is already disposed, call fn() at once, else store it.
      if s.disposed then { s with subActive := false }
      else { s with subActive := true, unlistenStored := true }
  | .cleanup =>
      -- effect cleanup: disposed = true first, then unlisten if stored.
      let s := { s with disposed := true }
      if s.unlistenStored then { s with subActive := false } else s

def relayRun (es : List REvent) (s : RelayState) : RelayState :=
  es.foldl (fun s e => relayStep e s) s

/-! ## Output Relay: the two handleKill variants of TerminalView.tsx

The repository carries two revisions of TerminalView. In the first,
handleKill is killSession(sessionId).then(() => onKill(sessionId))
.catch(console.error): the cell is removed only when the backend kill
succeeds. In the second, the catch handler logs and still calls
onKill(id): the cell is removed regardless of the outcome. onKill is the
TerminalGrid handleKill, which filters the id out of the visible set. -/

def removeSession (id : Nat) (sessions : List Nat) : List Nat :=
  sessions.filter (fun x => x ≠ id)

/-- First-variant handleKill: the visible set after the kill settles,
given whether the backend killSession call succeeded. -/
def handleKillV1 (killOk : Bool) (id : Nat) (sessions : List Nat) : List Nat :=
  if killOk then removeSession id sessions else sessions

/-- Second-variant handleKill: onKill runs in both the then-branch and the
catch-branch, so the id is removed either way. -/
def handleKillV2 (killOk : Bool) (id : Nat) (sessions : List Nat) : List Nat :=
  if killOk then removeSession id sessions else removeSession id sessions

/-! ## Registry lemmas -/

lemma initListenersStep_iter (n : Nat) :
    initListenersStep^[n + 1] regInit = ⟨n + 1, true⟩ := by
  induction n with
  | zero => rfl
  | succ n ih =>
      rw [Function.iterate_succ_apply', ih]
      simp [initListenersStep]

lemma disposerStep_iter (n c : Nat) (h : n < c) :
    disposerStep^[n] (⟨c, true⟩ : RegState) = ⟨c - n, true⟩ := by
  induction n generalizing c with
  | zero => simp
  | succ n ih =>
      rw [Function.iterate_succ_apply]
      have hstep : disposerStep (⟨c, true⟩ : RegState) = ⟨c - 1, true⟩ := by
        simp only [disposerStep]
        rw [if_neg]
        rintro ⟨h0, -⟩
        omega
      rw [hstep, ih (c - 1) (by omega)]
      congr 1
      omega

/-- Reference-count invariant of the Registry listener. -/
def RegInv (s : RegState) : Prop :=
  0 < s.listenerCount ↔ s.activeListener = true

lemma regStep_inv (e : RegEvent) (s : RegState) (h : RegInv s) :
    RegInv (regStep e s) := by
  obtain ⟨c, a⟩ := s
  cases e with
  | subscribe =>
      cases a <;> simp [regStep, initListenersStep, RegInv]
  | dispose =>
      cases a with
      | false =>
          simp only [RegInv] at h
          have hc : c = 0 := by
            by_contra hne
            exact absurd (h.mp (by omega)) (by simp)
          subst hc
          simp [regStep, disposerStep, RegInv]
      | true =>
          simp only [regStep, disposerStep, RegInv]
          split
          · simp_all
          · simp_all
            omega

lemma regRun_inv (es : List RegEvent) (s : RegState) (h : RegInv s) :
    RegInv (regRun es s) := by
  induction es generalizing s with
  | nil => exact h
  | cons e es ih => exact ih (regStep e s) (regStep_inv e s h)

/-- C3: calling initListeners k times and then k - 1 of the returned
disposers leaves the one underlying status-change listener active with
reference count 1; the k-th disposer call tears it down; and over every
sequence of subscribe and dispose events, a listener is active exactly
when the reference count is positive. -/
theorem initListeners_refcount (k : Nat) (hk : 1 ≤ k) :
    (disposerStep^[k - 1] (initListenersStep^[k] regInit)).activeListener = true ∧
    (disposerStep^[k - 1] (initListenersStep^[k] regInit)).listenerCount = 1 ∧
    (disposerStep^[k] (initListenersStep^[k] regInit)).activeListener = false ∧
    (disposerStep^[k] (initListenersStep^[k] regInit)).listenerCount = 0 ∧
    ∀ es : List RegEvent,
      (0 < (regRun es regInit).listenerCount ↔
        (regRun es regInit).activeListener = true) := by
  obtain ⟨n, rfl⟩ : ∃ n, k = n + 1 := ⟨k - 1, by omega⟩
  have hsub := initListenersStep_iter n
  have h1 : disposerStep^[n + 1 - 1] (initListenersStep^[n + 1] regInit) =
      (⟨1, true⟩ : RegState) := by
    rw [hsub]
    simpa using disposerStep_iter n (n + 1) (by omega)
  have h2 : disposerStep^[n + 1] (initListenersStep^[n + 1] regInit) =
      (⟨0, false⟩ : RegState) := by
    rw [Function.iterate_succ_apply']
    have : disposerStep^[n] (initListenersStep^[n + 1] regInit) =
        (⟨1, true⟩ : RegState) := by simpa using h1
    rw [this]
    rfl
  refine ⟨by rw [h1], by rw [h1], by rw [h2], by rw [h2], fun es => ?_⟩
  exact regRun_inv es regInit (by simp [RegInv, regInit])

/-- Witness for C3 at k = 3. -/
theorem initListeners_refcount_witness :
    (disposerStep^[2] (initListenersStep^[3] regInit)).listenerCount = 1 ∧
    (disposerStep^[3] (initListenersStep^[3] regInit)).activeListener = false :=
  ⟨(initListeners_refcount 3 (by decide)).2.1,
   (initListeners_refcount 3 (by decide)).2.2.1⟩

/-- C8 counterexample: after two subscribe calls, calling the same
disposer twice is not a no-op: the redundant second call decrements the
count to zero and tears the listener down even though the other
subscriber never released it. Under the claim the second call would
leave the state of the first call unchanged. -/
theorem disposer_redundant_call_counterexample :
    disposerStep (disposerStep (initListenersStep (initListenersStep regInit))) ≠
      disposerStep (initListenersStep (initListenersStep regInit)) ∧
    (disposerStep (disposerStep (initListenersStep (initListenersStep regInit)))).activeListener
      = false ∧
    (disposerStep (initListenersStep (initListenersStep regInit))).activeListener
      = true := by
  decide

/-- C8 amended: every disposer call decrements the reference count,
clamped at zero; a redundant call is a no-op only once the count is
already zero and the underlying listener has been torn down. -/
theorem disposer_decrements (s : RegState) :
    (disposerStep s).listenerCount = s.listenerCount - 1 ∧
    (s.listenerCount = 0 → s.activeListener = false → disposerStep s = s) := by
  obtain ⟨c, a⟩ := s
  constructor
  · simp only [disposerStep]
    split <;> rfl
  · rintro rfl rfl
    decide

/-- Witness for C8 amended at the torn-down state. -/
theorem disposer_decrements_witness :
    disposerStep ⟨0, false⟩ = (⟨0, false⟩ : RegState) :=
  (disposer_decrements ⟨0, false⟩).2 rfl rfl

/-- C10: a status-change event for an unknown sessionId leaves the session
list entirely unchanged; for a known sessionId it rewrites only the status
field of the matching entries and leaves every other entry untouched,
position by position. -/
theorem statusChanged_frame (sid : Nat) (st : BackendSessionStatus)
    (l : List SessionConfig) :
    ((∀ s ∈ l, s.id ≠ sid) → applyStatusChanged sid st l = l) ∧
    (applyStatusChanged sid st l).length = l.length ∧
    ∀ (i : Nat) (h : i < l.length),
      ((l.get ⟨i, h⟩).id ≠ sid →
        (applyStatusChanged sid st l)[i]? = some (l.get ⟨i, h⟩)) ∧
      ((l.get ⟨i, h⟩).id = sid →
        (applyStatusChanged sid st l)[i]? =
          some { l.get ⟨i, h⟩ with status := st }) := by
  refine ⟨?_, by simp [applyStatusChanged], ?_⟩
  · intro hall
    induction l with
    | nil => rfl
    | cons x xs ih =>
        simp only [applyStatusChanged, List.map_cons] at *
        rw [if_neg (hall x (by simp)), ih (fun s hs => hall s (by simp [hs]))]
  · intro i h
    have hmap : (applyStatusChanged sid st l)[i]? =
        (l[i]?).map (fun s => if s.id = sid then { s with status := st } else s) := by
      simp [applyStatusChanged]
    have hget : l[i]? = some (l.get ⟨i, h⟩) := by
      simp [List.getElem?_eq_getElem h]
    constructor
    · intro hne
      rw [hmap, hget, Option.map_some']
      simp only [List.get_eq_getElem] at hne ⊢
      rw [if_neg hne]
    · intro heq
      rw [hmap, hget, Option.map_some']
      simp only [List.get_eq_getElem] at heq ⊢
      rw [if_pos heq]

/-! ## Orchestrator lemmas -/

@[simp] lemma commitGrid_sessions (old new : Grid) :
    (commitGrid old new).sessions = new.sessions := by
  simp only [commitGrid]
  split
  · rfl
  · split <;> rfl

@[simp] lemma commitGrid_killed (old new : Grid) :
    (commitGrid old new).killed = new.killed := by
  simp only [commitGrid]
  split
  · rfl
  · split <;> rfl

@[simp] lemma commitGrid_cancelled (old new : Grid) :
    (commitGrid old new).cancelled = new.cancelled := by
  simp only [commitGrid]
  split
  · rfl
  · split <;> rfl

lemma gridStep_cap (e : GEvent) (s : Grid)
    (h : s.sessions.length ≤ MAX_SESSIONS) :
    (gridStep e s).sessions.length ≤ MAX_SESSIONS := by
  cases e with
  | mountResolve id =>
      simp only [gridStep]
      split
      · exact h
      · simp [MAX_SESSIONS]
  | mountFail =>
      simp only [gridStep]
      split
      · exact h
      · simpa using h
  | addClick =>
      simp only [gridStep]
      split <;> exact h
  | addResolve id =>
      simp only [gridStep]
      split
      · exact h
      · split
        · exact h
        · split
          · exact h
          · rename_i hlt
            simp only [commitGrid_sessions, List.length_append, List.length_singleton]
            omega
  | addFail =>
      simp only [gridStep]
      split <;> exact h
  | respawnResolve ep id =>
      simp only [gridStep]
      split
      · simp [MAX_SESSIONS]
      · exact h
  | respawnFail ep =>
      simp only [gridStep]
      split
      · simpa using h
      · exact h
  | killCell id =>
      simp only [gridStep]
      split
      · exact h
      · simp only [commitGrid_sessions]
        exact le_trans (List.length_filter_le _ _) h
  | unmount =>
      simp only [gridStep]
      split <;> exact h

lemma gridRun_cap (es : List GEvent) (s : Grid)
    (h : s.sessions.length ≤ MAX_SESSIONS) :
    (gridRun es s).sessions.length ≤ MAX_SESSIONS := by
  induction es generalizing s with
  | nil => exact h
  | cons e es ih => exact ih (gridStep e s) (gridStep_cap e s h)

lemma mem_sessions_gridStep (e : GEvent) (s : Grid) (x : Nat)
    (hx : x ∈ (gridStep e s).sessions) : x ∈ s.sessions ∨ delivers e x = true := by
  cases e with
  | mountResolve id =>
      simp only [gridStep] at hx
      split at hx
      · exact Or.inl hx
      · simp only [commitGrid_sessions, List.mem_singleton] at hx
        subst hx
        simp [delivers]
  | mountFail =>
      simp only [gridStep] at hx
      split at hx
      · exact Or.inl hx
      · simp only [commitGrid_sessions] at hx
        exact Or.inl hx
  | addClick =>
      simp only [gridStep] at hx
      split at hx <;> exact Or.inl hx
  | addResolve id =>
      simp only [gridStep] at hx
      split at hx
      · exact Or.inl hx
      · split at hx
        · exact Or.inl hx
        · split at hx
          · exact Or.inl hx
          · simp only [commitGrid_sessions, List.mem_append, List.mem_singleton] at hx
            rcases hx with hx | hx
            · exact Or.inl hx
            · subst hx
              simp [delivers]
  | addFail =>
      simp only [gridStep] at hx
      split at hx <;> exact Or.inl hx
  | respawnResolve ep id =>
      simp only [gridStep] at hx
      split at hx
      · simp only [commitGrid_sessions, List.mem_singleton] at hx
        subst hx
        simp [delivers]
      · exact Or.inl hx
  | respawnFail ep =>
      simp only [gridStep] at hx
      split at hx
      · simp only [commitGrid_sessions] at hx
        exact Or.inl hx
      · exact Or.inl hx
  | killCell id =>
      simp only [gridStep] at hx
      split at hx
      · exact Or.inl hx
      · simp only [commitGrid_sessions] at hx
        exact Or.inl (List.mem_of_mem_filter hx)
  | unmount =>
      simp only [gridStep] at hx
      split at hx <;> exact Or.inl hx

lemma not_mem_gridRun (es : List GEvent) (s : Grid) (x : Nat)
    (hs : x ∉ s.sessions) (hnd : ∀ e ∈ es, delivers e x = false) :
    x ∉ (gridRun es s).sessions := by
  induction es generalizing s with
  | nil => exact hs
  | cons e es ih =>
      refine ih (gridStep e s) ?_ (fun e2 he2 => hnd e2 (by simp [he2]))
      intro hmem
      rcases mem_sessions_gridStep e s x hmem with h | h
      · exact hs h
      · rw [hnd e (by simp)] at h
        cases h

/-- C1: over every event sequence, the live id-set size never exceeds
MAX_SESSIONS; and a spawned id whose addSession resolution arrives when
the committed list is already full is passed to killSession instead of
being admitted, the committed list staying as it was. -/
theorem addSession_cap (es : List GEvent) (s : Grid)
    (hcap : s.sessions.length ≤ MAX_SESSIONS) :
    (gridRun es s).sessions.length ≤ MAX_SESSIONS ∧
    ∀ id : Nat, s.pendingAdd ≠ 0 → s.cancelled = false →
      MAX_SESSIONS ≤ s.sessions.length →
      (gridStep (.addResolve id) s).sessions = s.sessions ∧
      id ∈ (gridStep (.addResolve id) s).killed := by
  refine ⟨gridRun_cap es s hcap, fun id hp hc hfull => ?_⟩
  simp [gridStep, hp, hc, hfull]

/-- Witness for C1: with six live sessions and one in-flight add, the
resolving id 9 is killed and the set stays at six. -/
theorem addSession_cap_witness :
    (gridRun [GEvent.addResolve 9]
      { sessions := [1, 2, 3, 4, 5, 6], error := false, mounted := true
        cancelled := false, pendingAdd := 1, respawnEpoch := 0
        respawnSpawns := 0, killed := [] }).sessions.length ≤ MAX_SESSIONS ∧
    9 ∈ (gridStep (GEvent.addResolve 9)
      { sessions := [1, 2, 3, 4, 5, 6], error := false, mounted := true
        cancelled := false, pendingAdd := 1, respawnEpoch := 0
        respawnSpawns := 0, killed := [] }).killed := by
  have h := addSession_cap [GEvent.addResolve 9]
    { sessions := [1, 2, 3, 4, 5, 6], error := false, mounted := true
      cancelled := false, pendingAdd := 1, respawnEpoch := 0
      respawnSpawns := 0, killed := [] } (by decide)
  exact ⟨h.1, (h.2 9 (by decide) (by decide) (by decide)).2⟩

/-- Event trace of the overflow scenario: one committed session, then
seven addSession clicks all before any spawn resolves, then the seven
spawn resolutions. -/
def overflowTrace : List GEvent :=
  [.mountResolve 100, .addClick, .addClick, .addClick, .addClick, .addClick,
   .addClick, .addClick, .addResolve 1, .addResolve 2, .addResolve 3,
   .addResolve 4, .addResolve 5, .addResolve 6, .addResolve 7]

/-- C2 counterexample: starting from one live session, seven rapid
addSession calls issued before any spawn resolves settle at six live
sessions, but two backend sessions, not one, are spawned and then killed
as overflow: the stale pre-check admits all seven spawns and the updater
re-check rejects the last two. -/
theorem addSession_overflow_counterexample :
    (gridRun overflowTrace gridInit).sessions.length = 6 ∧
    (gridRun overflowTrace gridInit).killed.length ≠ 1 := by
  decide

/-- C2 amended: the scenario settles at exactly six live sessions with
exactly two backend sessions spawned and then killed as overflow. -/
theorem addSession_overflow :
    (gridRun overflowTrace gridInit).sessions = [100, 1, 2, 3, 4, 5] ∧
    (gridRun overflowTrace gridInit).killed = [7, 6] := by
  decide

/-- C5: a spawn resolution (initial mount or auto-respawn) arriving after
its owning scope was cancelled passes the returned id to killSession,
leaves the committed session list untouched, and, the backend never
reusing the id for another delivery, the id never appears in the visible
set at any later point. -/
theorem cancelled_spawn_killed (s : Grid) (e : GEvent) (id : Nat)
    (es : List GEvent)
    (hc : cancelledSpawnResolve e s id)
    (hfresh : id ∉ s.sessions)
    (hnd : ∀ e2 ∈ es, delivers e2 id = false) :
    id ∈ (gridStep e s).killed ∧
    (gridStep e s).sessions = s.sessions ∧
    ∀ t1 t2, es = t1 ++ t2 → id ∉ (gridRun t1 (gridStep e s)).sessions := by
  have hstep : (gridStep e s).killed = id :: s.killed ∧
      (gridStep e s).sessions = s.sessions := by
    rcases hc with ⟨rfl, hcanc⟩ | ⟨ep, rfl, hgate⟩
    · simp [gridStep, hcanc]
    · have : ¬(ep = s.respawnEpoch ∧ s.cancelled = false) := hgate
      simp [gridStep, this]
  refine ⟨by simp [hstep.1], hstep.2, fun t1 t2 ht => ?_⟩
  refine not_mem_gridRun t1 (gridStep e s) id (by rw [hstep.2]; exact hfresh) ?_
  intro e2 he2
  exact hnd e2 (by simp [ht, he2])

/-- Witness for C5: a cancelled initial-mount spawn resolving with id 42
is killed and 42 is absent from the visible set after a further event. -/
theorem cancelled_spawn_killed_witness :
    42 ∈ (gridStep (GEvent.mountResolve 42) { gridInit with cancelled := true }).killed ∧
    42 ∉ (gridRun [GEvent.addClick]
      (gridStep (GEvent.mountResolve 42) { gridInit with cancelled := true })).sessions := by
  have h := cancelled_spawn_killed { gridInit with cancelled := true }
    (GEvent.mountResolve 42) 42 [GEvent.addClick]
    (Or.inl ⟨rfl, rfl⟩) (by decide) (by decide)
  exact ⟨h.1, h.2.2 [GEvent.addClick] [] (by simp)⟩

/-- C6: when the user closes the last remaining cell of a mounted,
error-free, still-mounted scope, the committed set becomes empty and the
auto-respawn effect issues exactly one replacement spawnShell call. -/
theorem auto_respawn_exactly_one (s : Grid) (id : Nat)
    (hm : s.mounted = true) (he : s.error = false) (hc : s.cancelled = false)
    (hne : s.sessions ≠ [])
    (hemp : s.sessions.filter (fun x => x ≠ id) = []) :
    (gridStep (.killCell id) s).sessions = [] ∧
    (gridStep (.killCell id) s).respawnSpawns = s.respawnSpawns + 1 := by
  have hlen : s.sessions.length ≠ 0 := by
    simpa [List.length_eq_zero] using hne
  have h1 : gridStep (GEvent.killCell id) s =
      commitGrid s { s with sessions := s.sessions.filter (fun x => x ≠ id) } := by
    simp only [gridStep]
    rw [if_neg (by simp [hc])]
  rw [h1]
  simp only [commitGrid]
  split
  · rename_i hcond
    exfalso
    have hz : (0 : Nat) = s.sessions.length := by
      have h2 := hcond.1
      rw [hemp] at h2
      simpa using h2
    exact hlen hz.symm
  · split
    · exact ⟨hemp, rfl⟩
    · rename_i hcond2
      exfalso
      apply hcond2
      refine ⟨?_, ?_, ?_⟩
      · show (s.sessions.filter (fun x => x ≠ id)).length = 0
        rw [hemp]
        rfl
      · exact hm
      · exact he

/-- Witness for C6: killing the single session 5 leaves an empty set and
exactly one respawn issued. -/
theorem auto_respawn_exactly_one_witness :
    (gridStep (GEvent.killCell 5)
      { gridInit with sessions := [5], mounted := true }).sessions = [] ∧
    (gridStep (GEvent.killCell 5)
      { gridInit with sessions := [5], mounted := true }).respawnSpawns = 1 :=
  auto_respawn_exactly_one { gridInit with sessions := [5], mounted := true } 5
    rfl rfl rfl (by decide) (by decide)

/-- C7: the unmount cleanup of a not-yet-cancelled scope issues exactly
one killSession call per member of the last-known session set, in order,
extending the kill log by exactly the session list. -/
theorem unmount_kills_each_session (s : Grid) (hc : s.cancelled = false) :
    (gridStep .unmount s).killed = s.killed ++ s.sessions ∧
    (gridStep .unmount s).killed.length = s.killed.length + s.sessions.length := by
  simp [gridStep, hc]

/-- Witness for C7: unmounting a scope holding three live sessions logs
exactly those three kills. -/
theorem unmount_kills_each_session_witness :
    (gridStep GEvent.unmount
      { gridInit with sessions := [1, 2, 3], mounted := true }).killed = [1, 2, 3] ∧
    (gridStep GEvent.unmount
      { gridInit with sessions := [1, 2, 3], mounted := true }).killed.length = 3 := by
  have h := unmount_kills_each_session
    { gridInit with sessions := [1, 2, 3], mounted := true } rfl
  exact ⟨by simpa using h.1, by simpa using h.2⟩

/-! ## Output Relay lemmas -/

lemma relayStep_disposed (e : REvent) (s : RelayState) (h : s.disposed = true) :
    (relayStep e s).disposed = true ∧ (relayStep e s).writes = s.writes := by
  cases e with
  | output => simp [relayStep, h]
  | resolve => simp [relayStep, h]
  | cleanup =>
      simp only [relayStep]
      split <;> simp

lemma relayRun_writes (es : List REvent) (s : RelayState) (h : s.disposed = true) :
    (relayRun es s).writes = s.writes ∧ (relayRun es s).disposed = true := by
  induction es generalizing s with
  | nil => exact ⟨rfl, h⟩
  | cons e es ih =>
      obtain ⟨hd, hw⟩ := relayStep_disposed e s h
      obtain ⟨hw2, hd2⟩ := ih (relayStep e s) hd
      exact ⟨hw2.trans hw, hd2⟩

/-- Teardown invariant of one Output Relay cell: a disposed cell has no
live underlying subscription, and a live subscription always has its
unlisten function stored, so the cleanup can reach it. -/
def RelayInv (s : RelayState) : Prop :=
  (s.disposed = true → s.subActive = false) ∧
  (s.subActive = true → s.unlistenStored = true)

lemma relayStep_inv (e : REvent) (s : RelayState) (h : RelayInv s) :
    RelayInv (relayStep e s) := by
  obtain ⟨h1, h2⟩ := h
  cases e with
  | output =>
      simp only [relayStep]
      split
      · exact ⟨h1, h2⟩
      · exact ⟨h1, h2⟩
  | resolve =>
      simp only [relayStep]
      split
      · exact ⟨fun _ => rfl, fun hx => by cases hx⟩
      · exact ⟨by simp_all, fun _ => rfl⟩
  | cleanup =>
      simp only [relayStep]
      split
      · exact ⟨fun _ => rfl, fun hx => by cases hx⟩
      · rename_i hns
        refine ⟨fun _ => ?_, fun hx => h2 hx⟩
        by_contra hact
        exact hns (by rw [h2 (by simpa using hact)])

lemma relayRun_inv (es : List REvent) (s : RelayState) (h : RelayInv s) :
    RelayInv (relayRun es s) := by
  induction es generalizing s with
  | nil => exact h
  | cons e es ih => exact ih (relayStep e s) (relayStep_inv e s h)

/-- C4: once deactivation has set the disposed flag, no later pushed
output event ever writes into the terminal surface; a subscribeOutput
promise resolving after disposal has its disposer invoked immediately
(no live subscription results); and along every event history from
activation, a disposed cell never holds a live subscription. -/
theorem relay_no_write_after_dispose (es : List REvent) (s : RelayState)
    (hd : s.disposed = true) :
    (relayRun es s).writes = s.writes ∧
    (relayStep .resolve s).subActive = false ∧
    ∀ es2 : List REvent,
      (relayRun es2 relayInit).disposed = true →
      (relayRun es2 relayInit).subActive = false := by
  refine ⟨(relayRun_writes es s hd).1, ?_, fun es2 hd2 => ?_⟩
  · simp [relayStep, hd]
  · exact (relayRun_inv es2 relayInit
      ⟨fun h => absurd h (by decide), fun h => absurd h (by decide)⟩).1 hd2

/-- Witness for C4: after cleanup, a late resolve and two output pushes
leave the write count at zero and no live subscription. -/
theorem relay_no_write_after_dispose_witness :
    (relayRun [REvent.resolve, REvent.output, REvent.output]
      (relayStep REvent.cleanup relayInit)).writes =
      (relayStep REvent.cleanup relayInit).writes ∧
    (relayRun [REvent.cleanup, REvent.resolve]
      relayInit).subActive = false := by
  have h := relay_no_write_after_dispose
    [REvent.resolve, REvent.output, REvent.output]
    (relayStep REvent.cleanup relayInit) (by decide)
  exact ⟨h.1, h.2.2 [REvent.cleanup, REvent.resolve] (by decide)⟩

/-- C9 counterexample: in the first TerminalView variant, a failing
backend kill leaves the killed id in the visible set: onKill runs only in
the then-branch, so after killSession(1) rejects on the set [1], the
visible set still contains 1, against the claim that it never does. -/
theorem handleKill_failure_counterexample :
    handleKillV1 false 1 [1] = [1] ∧ 1 ∈ handleKillV1 false 1 [1] := by
  decide

/-- C9 amended: in the second TerminalView variant the killed id is
removed from the visible set whether the backend kill succeeds or fails
(optimistic local removal); in the first variant the id is removed exactly
when the kill succeeds, a failure leaving the visible set unchanged. -/
theorem handleKill_removal (killOk : Bool) (id : Nat) (sessions : List Nat) :
    id ∉ handleKillV2 killOk id sessions ∧
    handleKillV1 true id sessions = removeSession id sessions ∧
    handleKillV1 false id sessions = sessions ∧
    id ∉ removeSession id sessions := by
  have hrem : id ∉ removeSession id sessions := by
    simp [removeSession, List.mem_filter]
  refine ⟨?_, rfl, rfl, hrem⟩
  cases killOk <;> simpa [handleKillV2] using hrem

/-- Witness for C9 amended: a failing kill of id 1 on [1, 2] still removes
1 in the second variant. -/
theorem handleKill_removal_witness :
    1 ∉ handleKillV2 false 1 [1, 2] ∧ handleKillV1 false 1 [1, 2] = [1, 2] :=
  ⟨(handleKill_removal false 1 [1, 2]).1, (handleKill_removal false 1 [1, 2]).2.2.1⟩

/-- Witness for C10: a push for unknown id 2 leaves a one-entry list
unchanged. -/
theorem statusChanged_frame_witness :
    applyStatusChanged 2 BackendSessionStatus.Working
      [⟨1, AiMode.Plain, none, BackendSessionStatus.Idle, none⟩] =
      [⟨1, AiMode.Plain, none, BackendSessionStatus.Idle, none⟩] :=
  (statusChanged_frame 2 BackendSessionStatus.Working
      [⟨1, AiMode.Plain, none, BackendSessionStatus.Idle, none⟩]).1 (by decide)

end Maestro
